import Mathlib

/-!
Verification of the paper-machine knowledge pipeline.

This file gives a shallow embedding, in Lean, of the core operations of the
repository (content-addressed upload with deduplication, file/blob removal,
threshold-ranked similarity search scoped to an allowed-key list, the RAG
orchestrator, and the agent streaming helpers), and proves or refutes the
spec claims about them.

Modelling conventions:
- PostgreSQL tables are Lean lists of structure rows; SQL statements become
  list operations translated clause by clause from the query text.
- Floating-point similarity values are modelled as rationals; the pgvector
  cosine-distance operator is an arbitrary function parameter since none of
  the claims depends on its numeric definition.
- MinIO object storage is a list of object keys (the bucket).
- Model calls (OpenAI chat completions, sentence embedding) are oracles: an
  outcome value that is either a result or a raised exception message.
-/

namespace PaperMachine

/-- Row of the `embeddings` table: (object_key, embedding, text), as inserted
by save_embeddings_to_vectordb in src/backend/src/database/utils.py. -/
structure EmbeddingRow where
  object_key : String
  text : String
  embedding : List ℚ
  deriving DecidableEq, Repr

/-- One row of the result set of search_similar_chunks_by_objects: the SELECT
clause projects text, object_key and the computed similarity. -/
structure SearchResult where
  text : String
  object_key : String
  similarity : ℚ
  deriving DecidableEq, Repr

/-- Similarity as computed in the SQL query of search_similar_chunks_by_objects
(src/backend/src/rag/utils.py line 167): 1 - (embedding <=> query_embedding).
The pgvector distance operator <=> is the parameter dist. -/
def similarity (dist : List ℚ → List ℚ → ℚ) (embedding query_embedding : List ℚ) : ℚ :=
  1 - dist embedding query_embedding

/-- WHERE clause of the search query (src/backend/src/rag/utils.py lines
169-171): object_key = ANY(:object_keys) AND similarity > :threshold.
Note the strict comparison in the source. -/
def rowMatches (dist : List ℚ → List ℚ → ℚ) (query_embedding : List ℚ)
    (object_keys : List String) (threshold : ℚ) (r : EmbeddingRow) : Bool :=
  decide (r.object_key ∈ object_keys) &&
    decide (threshold < similarity dist r.embedding query_embedding)

/-- SELECT clause projection of one matching row. -/
def toSearchResult (dist : List ℚ → List ℚ → ℚ) (query_embedding : List ℚ)
    (r : EmbeddingRow) : SearchResult :=
  ⟨r.text, r.object_key, similarity dist r.embedding query_embedding⟩

/-- The matching rows, projected, before ORDER BY and LIMIT. -/
def qualifyingResults (dist : List ℚ → List ℚ → ℚ) (table : List EmbeddingRow)
    (query_embedding : List ℚ) (object_keys : List String) (threshold : ℚ) :
    List SearchResult :=
  (table.filter (rowMatches dist query_embedding object_keys threshold)).map
    (toSearchResult dist query_embedding)

/-- Descending order on similarity, the ORDER BY similarity DESC relation. -/
def simDesc (a b : SearchResult) : Prop := b.similarity ≤ a.similarity

instance : DecidableRel simDesc :=
  fun a b => inferInstanceAs (Decidable (b.similarity ≤ a.similarity))

instance : IsTotal SearchResult simDesc :=
  ⟨fun a b => le_total b.similarity a.similarity⟩

instance : IsTrans SearchResult simDesc :=
  ⟨fun _ _ _ h1 h2 => le_trans h2 h1⟩

/-- Shallow embedding of search_similar_chunks_by_objects
(src/backend/src/rag/utils.py lines 154-195, identical SQL in
src/backend/src/database/utils.py lines 224-278): filter by key membership
and strict threshold, order by similarity descending, LIMIT. -/
def searchSimilarChunksByObjects (dist : List ℚ → List ℚ → ℚ)
    (table : List EmbeddingRow) (query_embedding : List ℚ)
    (object_keys : List String) (limit : ℕ) (threshold : ℚ) : List SearchResult :=
  ((qualifyingResults dist table query_embedding object_keys threshold).insertionSort
    simDesc).take limit

/-- Result of one call of search_similar_chunks_by_objects together with the
number of SQL queries it issues against the embeddings table. The source
function executes db.fetch_all unconditionally: it contains no branch on
object_keys being empty, so every call issues exactly one index query. -/
structure SearchCall where
  results : List SearchResult
  queries_issued : ℕ
  deriving DecidableEq, Repr

/-- One invocation of search_similar_chunks_by_objects, with its effect on the
database connection recorded: the query is always issued, also for an empty
object_keys list. -/
def searchSimilarChunksByObjectsCall (dist : List ℚ → List ℚ → ℚ)
    (table : List EmbeddingRow) (query_embedding : List ℚ)
    (object_keys : List String) (limit : ℕ) (threshold : ℚ) : SearchCall :=
  { results := searchSimilarChunksByObjects dist table query_embedding object_keys limit threshold,
    queries_issued := 1 }

/-- Row of the `objects` table (src/backend/src/routes/storage_router.py
lines 97-100): one record per stored blob. -/
structure ObjectRow where
  object_key : String
  content_type : String
  size : ℕ
  deriving DecidableEq, Repr

/-- Row of the `user_files` table (storage_router.py lines 137-141): one
FileRecord per (owner, object_key) pair. -/
structure UserFileRow where
  user_id : ℕ
  object_key : String
  original_filename : String
  content_type : String
  deriving DecidableEq, Repr

/-- Combined persistent state touched by the storage routes: the MinIO bucket
(list of object keys present), the objects table, the user_files table and
the embeddings table. -/
structure ServerState where
  bucket : List String
  objects : List ObjectRow
  user_files : List UserFileRow
  embeddings : List EmbeddingRow
  deriving DecidableEq, Repr

/-- FileMetadata of src/backend/src/minio/dependencies.py. -/
structure FileMetadata where
  file_name : String
  content_type : String
  deriving DecidableEq, Repr

/-- FileInfo of src/backend/src/minio/dependencies.py; the file bytes
themselves are not kept in the model, only their length. -/
structure FileInfo where
  object_key : String
  file_length : ℕ
  metadata : FileMetadata
  deriving DecidableEq, Repr

/-- UploadInfo of src/backend/src/minio/dependencies.py. -/
structure UploadInfo where
  duplicate : Bool
  fileinfo : FileInfo
  deriving DecidableEq, Repr

/-- Shallow embedding of validate_upload (src/backend/src/minio/dependencies.py
lines 79-122): the object key is digest(file_data) and nothing else
(hashlib.sha256 over the raw bytes; the hash function is the parameter
digest), and the duplicate flag is whether stat_object finds that key in the
bucket. -/
def validateUpload (digest : List ℕ → String) (s : ServerState)
    (file_data : List ℕ) (file_name content_type : String) : UploadInfo :=
  let file_hash := digest file_data
  { duplicate := decide (file_hash ∈ s.bucket),
    fileinfo :=
      { object_key := file_hash,
        file_length := file_data.length,
        metadata := { file_name := file_name, content_type := content_type } } }

/-- Side effects performed by one call of upload_document, counted per kind:
MinIO put_object calls, INSERT INTO objects statements, background ingestion
tasks scheduled, and INSERT INTO user_files statements. -/
structure UploadEffects where
  put_object_calls : ℕ
  objects_inserts : ℕ
  background_tasks : ℕ
  user_files_inserts : ℕ
  deriving DecidableEq, Repr

/-- Shallow embedding of upload_document (storage_router.py lines 50-168).
When the upload is not a duplicate the handler calls put_object, inserts into
the objects table and (when embedding is enabled and a model path is set,
here the flag embed_on) schedules the background ingestion task; for a
duplicate the whole block is skipped. In both cases it then executes the
INSERT INTO user_files with ON CONFLICT (user_id, object_key) DO NOTHING. -/
def uploadDocument (embed_on : Bool) (user_id : ℕ) (info : UploadInfo)
    (s : ServerState) : ServerState × UploadEffects :=
  let key := info.fileinfo.object_key
  let ct := info.fileinfo.metadata.content_type
  let step1 : ServerState × UploadEffects :=
    if info.duplicate then
      (s, ⟨0, 0, 0, 0⟩)
    else
      ({ s with
          bucket := key :: s.bucket,
          objects := ⟨key, ct, info.fileinfo.file_length⟩ :: s.objects },
        ⟨1, 1, if embed_on then 1 else 0, 0⟩)
  let s1 := step1.1
  let s2 :=
    if s1.user_files.any
        (fun f => decide (f.user_id = user_id ∧ f.object_key = key)) then
      s1
    else
      { s1 with
          user_files :=
            ⟨user_id, key, info.fileinfo.metadata.file_name, ct⟩ :: s1.user_files }
  (s2, { step1.2 with user_files_inserts := step1.2.user_files_inserts + 1 })

/-- Shallow embedding of remove_document (storage_router.py lines 170-237):
DELETE the callers user_files row for the key, then SELECT count(*) of the
remaining user_files rows with that key; when the count is zero, remove the
MinIO object and DELETE the objects row. No statement in the handler touches
the embeddings table. -/
def removeDocument (user_id : ℕ) (object_key : String) (s : ServerState) :
    ServerState :=
  if ((s.user_files.filter
        (fun f => !(decide (f.user_id = user_id ∧ f.object_key = object_key)))).filter
      (fun f => decide (f.object_key = object_key))).length = 0 then
    { bucket := s.bucket.filter (fun k => !(decide (k = object_key))),
      objects := s.objects.filter (fun o => !(decide (o.object_key = object_key))),
      user_files := s.user_files.filter
        (fun f => !(decide (f.user_id = user_id ∧ f.object_key = object_key))),
      embeddings := s.embeddings }
  else
    { s with
        user_files := s.user_files.filter
          (fun f => !(decide (f.user_id = user_id ∧ f.object_key = object_key))) }

/-- Outcome of one fallible call (a model invocation or other awaited
operation inside the try block): either a value or a raised exception
carrying its message string. -/
inductive ModelCall (α : Type) where
  | ok (value : α)
  | exn (msg : String)
  deriving DecidableEq, Repr

/-- One entry of the sources list built by create_rag_response
(src/backend/src/rag/utils.py lines 107-111). -/
structure Source where
  object_key : String
  file_name : String
  text : String
  deriving DecidableEq, Repr

/-- The filename-resolution loop of create_rag_response (rag/utils.py lines
100-111): for each retrieved chunk, fetch_one the user_files row with its
object_key and read original_filename from it. When no row exists, fetch_one
yields None and the subscript raises a TypeError, which the enclosing except
block catches. -/
def resolveSources (user_files : List UserFileRow) :
    List SearchResult → ModelCall (List Source)
  | [] => .ok []
  | c :: cs =>
    match user_files.find? (fun f => decide (f.object_key = c.object_key)) with
    | none => .exn "TypeError: NoneType object is not subscriptable"
    | some f =>
      match resolveSources user_files cs with
      | .exn e => .exn e
      | .ok rest => .ok (⟨c.object_key, f.original_filename, c.text⟩ :: rest)

/-- The error text built by the except branch of create_rag_response
(rag/utils.py line 136). -/
def errorAnswer (e : String) : String := "Error generating response: " ++ e

/-- Value returned by create_rag_response, extended with effect counters:
how many times retrieve_relevant_chunks was called and how many SQL queries
were issued against the embeddings table. -/
structure RagResult where
  answer : String
  sources : List Source
  retrieval_calls : ℕ
  index_queries : ℕ
  deriving DecidableEq, Repr

/-- Shallow embedding of create_rag_response (rag/utils.py lines 52-136).
The two chat-completion calls and the query embedding are oracles: decision
is whether the first completion elected the retrieve_context tool (or raised),
embed_outcome the sentence-transformer encoding of the query (or a raise),
final_outcome the second completion (or a raise). When the model elects
retrieval, retrieve_relevant_chunks runs search_similar_chunks_by_objects
with its default limit 5 and threshold 0.7 on the access-scoped object_keys;
there is no emptiness check on object_keys anywhere on the path. Any
exception on the path is caught by the single except clause, which returns
the tagged error text with an empty sources list. -/
def createRagResponse (dist : List ℚ → List ℚ → ℚ) (table : List EmbeddingRow)
    (user_files : List UserFileRow) (object_keys : List String)
    (decision : ModelCall Bool) (embed_outcome : ModelCall (List ℚ))
    (final_outcome : ModelCall String) : RagResult :=
  match decision with
  | .exn e => ⟨errorAnswer e, [], 0, 0⟩
  | .ok false =>
    match final_outcome with
    | .exn e => ⟨errorAnswer e, [], 0, 0⟩
    | .ok ans => ⟨ans, [], 0, 0⟩
  | .ok true =>
    match embed_outcome with
    | .exn e => ⟨errorAnswer e, [], 0, 0⟩
    | .ok qe =>
      let call := searchSimilarChunksByObjectsCall dist table qe object_keys 5 (7/10)
      match resolveSources user_files call.results with
      | .exn e => ⟨errorAnswer e, [], 1, call.queries_issued⟩
      | .ok srcs =>
        match final_outcome with
        | .exn e => ⟨errorAnswer e, [], 1, call.queries_issued⟩
        | .ok ans => ⟨ans, srcs, 1, call.queries_issued⟩

/-- One message pushed onto the per-session output queue by
AgentChat._send_message (src/backend/agents/agentic_rag.py lines 266-271).
The sources items pass through untouched, so their type is a parameter. -/
structure QueueMessage (σ : Type) where
  sender : String
  content : String
  sources : List σ
  deriving DecidableEq, Repr

/-- Python str.capitalize over ASCII text: first character uppercased, the
rest lowercased (agentic_rag.py line 258). -/
def pyCapitalize (w : String) : String :=
  match w.data with
  | [] => ""
  | c :: cs => String.mk (c.toUpper :: cs.map Char.toLower)

/-- Python str.split(sep) for a single separator character, by structural
recursion on the character list. -/
def splitOnCharacter (sep : Char) : List Char → List (List Char)
  | [] => [[]]
  | c :: cs =>
    if c = sep then
      [] :: splitOnCharacter sep cs
    else
      match splitOnCharacter sep cs with
      | [] => [[c]]
      | w :: ws => (c :: w) :: ws

/-- Sender display name built by _send_message (agentic_rag.py line 258):
split on underscores, capitalize each word, join with spaces. -/
def displayName (sender : String) : String :=
  String.intercalate " "
    ((splitOnCharacter '_' sender.data).map (fun w => pyCapitalize (String.mk w)))

/-- Python str.isupper over ASCII text: at least one cased character, and
every cased character uppercase (agentic_rag.py line 263). -/
def pyIsUpper (s : List Char) : Bool :=
  s.any Char.isAlpha && s.all (fun c => !c.isAlpha || c.isUpper)

/-- Python content.split(chr(58), 1): the text before the first colon and the
text after it, or none when the content has no colon. -/
def splitFirstColon : List Char → Option (List Char × List Char)
  | [] => none
  | c :: cs =>
    if c = ':' then some ([], cs)
    else
      match splitFirstColon cs with
      | none => none
      | some (tag, message) => some (c :: tag, message)

/-- The tag-removal step of _send_message (agentic_rag.py lines 261-264):
when the content contains a colon, split at the first colon; when the part
before it is upper-case in the sense of str.isupper, keep only the part
after the colon. The step runs once, not repeatedly. -/
def stripTag (content : String) : String :=
  match splitFirstColon content.data with
  | none => content
  | some (tag, message) => if pyIsUpper tag then String.mk message else content

/-- Shallow embedding of AgentChat._send_message (agentic_rag.py lines
253-273): the list of messages pushed onto the session output queue. When
the queue is set one message is pushed, with the display name, the
tag-stripped content and the unchanged sources; otherwise nothing. -/
def sendMessage {σ : Type} (queue_set : Bool) (sender content : String)
    (sources : List σ) : List (QueueMessage σ) :=
  if queue_set then [⟨displayName sender, stripTag content, sources⟩] else []

/-- Outcome of the awaited a_generate_oai_reply call inside
_safe_generate_reply: a reply (flag plus response text, empty text modelling
a falsy response), a timeout of the asyncio.timeout block, or another
exception. -/
inductive GenOutcome where
  | reply (flag : Bool) (response : String)
  | timeout
  | failure (msg : String)
  deriving DecidableEq, Repr

/-- Shallow embedding of AgentChat._safe_generate_reply (agentic_rag.py lines
235-250). Returns the list of messages pushed onto the session output queue
together with the (flag, response) pair the coroutine returns. Only the
successful non-empty-reply branch calls _send_message; the falsy-response,
timeout and exception branches return an ERROR-tagged response string
without pushing anything onto the queue. -/
def safeGenerateReply {σ : Type} (queue_set : Bool) (agent_name : String)
    (outcome : GenOutcome) (sources : List σ) :
    List (QueueMessage σ) × (Bool × String) :=
  match outcome with
  | .reply flag response =>
    if response = "" then
      ([], (true, "ERROR: I encountered an error generating a response. Please try again."))
    else
      (sendMessage queue_set agent_name response sources, (flag, response))
  | .timeout =>
    ([], (true, "ERROR: I took too long to respond. Please try again."))
  | .failure e => ([], (true, "ERROR: " ++ e))

/-- Row condition as worded by claim C2: similarity not strictly below the
threshold, that is greater or equal. The source predicate rowMatches instead
keeps only rows strictly above the threshold. -/
def claimedRowMatches (dist : List ℚ → List ℚ → ℚ) (query_embedding : List ℚ)
    (object_keys : List String) (threshold : ℚ) (r : EmbeddingRow) : Bool :=
  decide (r.object_key ∈ object_keys) &&
    decide (threshold ≤ similarity dist r.embedding query_embedding)

/-- Formalisation of the wording of claim C2: the rows satisfying
claimedRowMatches, ranked by descending similarity, capped at the limit. -/
def searchClaimedResults (dist : List ℚ → List ℚ → ℚ) (table : List EmbeddingRow)
    (query_embedding : List ℚ) (object_keys : List String) (limit : ℕ)
    (threshold : ℚ) : List SearchResult :=
  (((table.filter (claimedRowMatches dist query_embedding object_keys threshold)).map
    (toSearchResult dist query_embedding)).insertionSort simDesc).take limit

/-- Distance oracle used by concrete witnesses: every pair of vectors at
distance 0, hence similarity 1. -/
def dist0 : List ℚ → List ℚ → ℚ := fun _ _ => 0

/-- Distance oracle used by the boundary counterexample: every pair of
vectors at distance 3/10, hence similarity exactly 7/10 = the default
threshold. -/
def dist3 : List ℚ → List ℚ → ℚ := fun _ _ => 3/10

/-- Evaluation of the search on a one-row table whose row has similarity 1
to the query, used to discharge membership hypotheses in witnesses. -/
theorem search_dist0_eval :
    searchSimilarChunksByObjects dist0 [⟨"k", "t", [0]⟩] [0] ["k"] 5 (7/10) =
      [⟨"t", "k", 1⟩] := by
  have hrow : rowMatches dist0 [0] ["k"] (7/10) ⟨"k", "t", [0]⟩ = true := by
    simp [rowMatches, similarity, dist0]
    norm_num
  simp [searchSimilarChunksByObjects, qualifyingResults, List.filter, hrow,
        toSearchResult, List.insertionSort, List.orderedInsert, similarity, dist0]

/-- Any row of the search output comes from a table row that passed the
WHERE clause. -/
theorem exists_of_mem_search {dist : List ℚ → List ℚ → ℚ}
    {table : List EmbeddingRow} {query_embedding : List ℚ}
    {object_keys : List String} {limit : ℕ} {threshold : ℚ} {r : SearchResult}
    (h : r ∈ searchSimilarChunksByObjects dist table query_embedding object_keys
      limit threshold) :
    ∃ row ∈ table,
      rowMatches dist query_embedding object_keys threshold row = true ∧
        r = toSearchResult dist query_embedding row := by
  unfold searchSimilarChunksByObjects at h
  have h1 := List.mem_of_mem_take h
  rw [List.mem_insertionSort] at h1
  unfold qualifyingResults at h1
  obtain ⟨row, hrow, rfl⟩ := List.mem_map.mp h1
  rw [List.mem_filter] at hrow
  exact ⟨row, hrow.1, hrow.2, rfl⟩

/-- Claim C1: every row returned by the similarity search
search_similar_chunks_by_objects has an object_key that is a member of the
supplied allowed-keys list, for every query vector, allowed-keys list,
limit, threshold and state of the embeddings table. -/
theorem search_respects_allowed_keys (dist : List ℚ → List ℚ → ℚ)
    (table : List EmbeddingRow) (query_embedding : List ℚ)
    (object_keys : List String) (limit : ℕ) (threshold : ℚ) (r : SearchResult)
    (h : r ∈ searchSimilarChunksByObjects dist table query_embedding object_keys
      limit threshold) :
    r.object_key ∈ object_keys := by
  obtain ⟨row, -, hmatch, rfl⟩ := exists_of_mem_search h
  rw [rowMatches, Bool.and_eq_true, decide_eq_true_eq] at hmatch
  exact hmatch.1

/-- Witness for claim C1 at a concrete table, query and allowed-keys list. -/
theorem search_respects_allowed_keys_witness :
    (⟨"t", "k", 1⟩ : SearchResult).object_key ∈ ["k"] :=
  search_respects_allowed_keys dist0 [⟨"k", "t", [0]⟩] [0] ["k"] 5 (7/10)
    ⟨"t", "k", 1⟩
    (by rw [search_dist0_eval]; exact List.mem_singleton.mpr rfl)

/-- Claim C2, amended: the search output consists exactly of the rows whose
object_key is in the allowed-keys list and whose similarity is strictly
above the threshold (the source query uses a strict comparison, not the
claimed greater-or-equal), sorted in descending order of similarity and
capped at limit rows taken from the top: the output is sorted, its length is
the minimum of the limit and the number of qualifying rows, every output row
is a qualifying row, and every qualifying row is either in the output or has
similarity at most that of every output row. -/
theorem search_characterization (dist : List ℚ → List ℚ → ℚ)
    (table : List EmbeddingRow) (query_embedding : List ℚ)
    (object_keys : List String) (limit : ℕ) (threshold : ℚ) :
    List.Sorted simDesc
      (searchSimilarChunksByObjects dist table query_embedding object_keys limit threshold)
    ∧ (searchSimilarChunksByObjects dist table query_embedding object_keys limit
        threshold).length =
        min limit (qualifyingResults dist table query_embedding object_keys threshold).length
    ∧ (∀ r ∈ searchSimilarChunksByObjects dist table query_embedding object_keys limit
        threshold,
        r ∈ qualifyingResults dist table query_embedding object_keys threshold)
    ∧ (∀ q ∈ qualifyingResults dist table query_embedding object_keys threshold,
        q ∈ searchSimilarChunksByObjects dist table query_embedding object_keys limit
          threshold ∨
        ∀ r ∈ searchSimilarChunksByObjects dist table query_embedding object_keys limit
          threshold, q.similarity ≤ r.similarity) := by
  refine ⟨?_, ?_, ?_, ?_⟩
  · exact List.Pairwise.sublist (List.take_sublist _ _)
      (List.sorted_insertionSort simDesc _)
  · rw [searchSimilarChunksByObjects, List.length_take, List.length_insertionSort]
  · intro r hr
    have h1 := List.mem_of_mem_take hr
    rwa [List.mem_insertionSort] at h1
  · intro q hq
    have hq' : q ∈ (qualifyingResults dist table query_embedding object_keys
        threshold).insertionSort simDesc := (List.mem_insertionSort simDesc).mpr hq
    rw [← List.take_append_drop limit ((qualifyingResults dist table query_embedding
      object_keys threshold).insertionSort simDesc)] at hq'
    rcases List.mem_append.mp hq' with h | h
    · exact Or.inl h
    · refine Or.inr (fun r hr => ?_)
      exact (List.sorted_insertionSort simDesc _).rel_of_mem_take_of_mem_drop hr h

/-- Counterexample to claim C2 as stated: a single row whose similarity to
the query is exactly the default threshold 7/10. The claim (similarity not
strictly below the threshold) would return the row, but the source query
keeps only rows strictly above the threshold and returns nothing. -/
theorem search_threshold_counterexample :
    searchSimilarChunksByObjects dist3 [⟨"k", "t", [0]⟩] [0] ["k"] 5 (7/10) = []
    ∧ searchClaimedResults dist3 [⟨"k", "t", [0]⟩] [0] ["k"] 5 (7/10) = [⟨"t", "k", 7/10⟩]
    ∧ similarity dist3 [0] [0] = 7/10 := by
  refine ⟨?_, ?_, ?_⟩
  · have hrow : rowMatches dist3 [0] ["k"] (7/10) ⟨"k", "t", [0]⟩ = false := by
      simp [rowMatches, similarity, dist3]
      norm_num
    simp [searchSimilarChunksByObjects, qualifyingResults, List.filter, hrow,
          List.insertionSort, List.orderedInsert]
  · have hrow : claimedRowMatches dist3 [0] ["k"] (7/10) ⟨"k", "t", [0]⟩ = true := by
      simp [claimedRowMatches, similarity, dist3]
      norm_num
    simp [searchClaimedResults, List.filter, hrow, toSearchResult,
          List.insertionSort, List.orderedInsert, SearchResult.mk.injEq, similarity, dist3]
    norm_num
  · simp [similarity, dist3]
    norm_num

/-- Witness for the amended claim C2 at a concrete table and query: the
single returned row is a qualifying row. -/
theorem search_characterization_witness :
    (⟨"t", "k", 1⟩ : SearchResult) ∈ qualifyingResults dist0 [⟨"k", "t", [0]⟩] [0] ["k"] (7/10) :=
  (search_characterization dist0 [⟨"k", "t", [0]⟩] [0] ["k"] 5 (7/10)).2.2.1 ⟨"t", "k", 1⟩
    (by rw [search_dist0_eval]; exact List.mem_singleton.mpr rfl)

/-- The MinIO bucket after upload_document: unchanged for a duplicate, the
new object key prepended otherwise. -/
theorem uploadDocument_bucket (embed_on : Bool) (user_id : ℕ) (info : UploadInfo)
    (s : ServerState) :
    (uploadDocument embed_on user_id info s).1.bucket =
      if info.duplicate then s.bucket else info.fileinfo.object_key :: s.bucket := by
  by_cases hd : info.duplicate <;> simp [uploadDocument, hd] <;> split <;> rfl

/-- The objects table after upload_document: unchanged for a duplicate, one
new row otherwise. -/
theorem uploadDocument_objects (embed_on : Bool) (user_id : ℕ) (info : UploadInfo)
    (s : ServerState) :
    (uploadDocument embed_on user_id info s).1.objects =
      if info.duplicate then s.objects
      else ⟨info.fileinfo.object_key, info.fileinfo.metadata.content_type,
        info.fileinfo.file_length⟩ :: s.objects := by
  by_cases hd : info.duplicate <;> simp [uploadDocument, hd] <;> split <;> rfl

/-- upload_document never touches the embeddings table directly. -/
theorem uploadDocument_embeddings (embed_on : Bool) (user_id : ℕ) (info : UploadInfo)
    (s : ServerState) :
    (uploadDocument embed_on user_id info s).1.embeddings = s.embeddings := by
  by_cases hd : info.duplicate <;> simp [uploadDocument, hd] <;> split <;> rfl

/-- Effect counts of one upload_document call, by duplicate flag. -/
theorem uploadDocument_effects (embed_on : Bool) (user_id : ℕ) (info : UploadInfo)
    (s : ServerState) :
    (uploadDocument embed_on user_id info s).2 =
      ⟨if info.duplicate then 0 else 1, if info.duplicate then 0 else 1,
        if info.duplicate then 0 else if embed_on then 1 else 0, 1⟩ := by
  by_cases hd : info.duplicate <;> simp [uploadDocument, hd]

/-- Claim C3: uploading the same bytes twice yields the same object_key both
times (the key is digest(bytes) alone), the second validate_upload reports a
duplicate, the second upload_document performs no put_object call, and
exactly one copy of the key is stored in the bucket afterwards. -/
theorem upload_dedup_idempotent (digest : List ℕ → String) (s0 : ServerState)
    (file_data : List ℕ) (u1 u2 : ℕ) (fn1 ct1 fn2 ct2 : String) (embed_on : Bool)
    (info1 info2 : UploadInfo) (r1 r2 : ServerState × UploadEffects)
    (h1 : info1 = validateUpload digest s0 file_data fn1 ct1)
    (h2 : r1 = uploadDocument embed_on u1 info1 s0)
    (h3 : info2 = validateUpload digest r1.1 file_data fn2 ct2)
    (h4 : r2 = uploadDocument embed_on u2 info2 r1.1)
    (hnew : digest file_data ∉ s0.bucket) :
    info1.fileinfo.object_key = info2.fileinfo.object_key
    ∧ info2.duplicate = true
    ∧ r2.2.put_object_calls = 0
    ∧ r2.1.bucket.count (digest file_data) = 1 := by
  subst h1 h2 h3 h4
  have hdup1 : (validateUpload digest s0 file_data fn1 ct1).duplicate = false := by
    simp [validateUpload, hnew]
  have hb1 : (uploadDocument embed_on u1 (validateUpload digest s0 file_data fn1 ct1) s0).1.bucket
      = digest file_data :: s0.bucket := by
    rw [uploadDocument_bucket, hdup1]
    simp [validateUpload]
  have hmem : digest file_data ∈
      (uploadDocument embed_on u1 (validateUpload digest s0 file_data fn1 ct1) s0).1.bucket := by
    rw [hb1]; exact List.mem_cons_self _ _
  have hdup2 : (validateUpload digest
      (uploadDocument embed_on u1 (validateUpload digest s0 file_data fn1 ct1) s0).1
      file_data fn2 ct2).duplicate = true := by
    simpa [validateUpload] using hmem
  refine ⟨by simp [validateUpload], hdup2, ?_, ?_⟩
  · rw [uploadDocument_effects, hdup2]
    simp
  · rw [uploadDocument_bucket, hdup2, if_pos rfl, hb1, List.count_cons_self,
      List.count_eq_zero.mpr hnew]

/-- Digest oracle for concrete upload witnesses: a constant key. -/
def digestConst : List ℕ → String := fun _ => "h"

/-- Empty starting state for concrete upload witnesses. -/
def emptyState : ServerState := ⟨[], [], [], []⟩

/-- Witness for claim C3: two uploads of the byte list [1] by two owners
into the empty state. -/
theorem upload_dedup_idempotent_witness :
    (validateUpload digestConst emptyState [1] "a.txt" "text/plain").fileinfo.object_key
      = (validateUpload digestConst
          (uploadDocument false 1
            (validateUpload digestConst emptyState [1] "a.txt" "text/plain")
            emptyState).1 [1] "b.txt" "text/plain").fileinfo.object_key
    ∧ (validateUpload digestConst
        (uploadDocument false 1
          (validateUpload digestConst emptyState [1] "a.txt" "text/plain")
          emptyState).1 [1] "b.txt" "text/plain").duplicate = true
    ∧ (uploadDocument false 2
        (validateUpload digestConst
          (uploadDocument false 1
            (validateUpload digestConst emptyState [1] "a.txt" "text/plain")
            emptyState).1 [1] "b.txt" "text/plain")
        (uploadDocument false 1
          (validateUpload digestConst emptyState [1] "a.txt" "text/plain")
          emptyState).1).2.put_object_calls = 0
    ∧ (uploadDocument false 2
        (validateUpload digestConst
          (uploadDocument false 1
            (validateUpload digestConst emptyState [1] "a.txt" "text/plain")
            emptyState).1 [1] "b.txt" "text/plain")
        (uploadDocument false 1
          (validateUpload digestConst emptyState [1] "a.txt" "text/plain")
          emptyState).1).1.bucket.count (digestConst [1]) = 1 :=
  upload_dedup_idempotent digestConst emptyState [1] 1 2 "a.txt" "text/plain"
    "b.txt" "text/plain" false _ _ _ _ rfl rfl rfl rfl (by decide)

/-- Claim C7: for a duplicate upload, the handler performs no put_object
call, no objects-table insert and schedules no background ingestion task;
only the user_files insert statement is executed, and the bucket, objects
table and embeddings table are unchanged. -/
theorem upload_duplicate_frame (embed_on : Bool) (user_id : ℕ) (info : UploadInfo)
    (s : ServerState) (hdup : info.duplicate = true) :
    (uploadDocument embed_on user_id info s).2 = ⟨0, 0, 0, 1⟩
    ∧ (uploadDocument embed_on user_id info s).1.bucket = s.bucket
    ∧ (uploadDocument embed_on user_id info s).1.objects = s.objects
    ∧ (uploadDocument embed_on user_id info s).1.embeddings = s.embeddings := by
  refine ⟨?_, ?_, ?_, ?_⟩
  · rw [uploadDocument_effects, hdup]
    simp
  · rw [uploadDocument_bucket, hdup]
    simp
  · rw [uploadDocument_objects, hdup]
    simp
  · exact uploadDocument_embeddings embed_on user_id info s

/-- State holding one stored blob "k", its objects row, one FileRecord for
owner 1 and one chunk row, used by concrete removal and duplicate-upload
theorems. -/
def oneFileState : ServerState :=
  ⟨["k"], [⟨"k", "text/plain", 1⟩], [⟨1, "k", "f.txt", "text/plain"⟩],
    [⟨"k", "chunk text", [0]⟩]⟩

/-- UploadInfo with the duplicate flag set for key "k", used by the claim C7
witness. -/
def duplicateInfo : UploadInfo := ⟨true, ⟨"k", 1, ⟨"f.txt", "text/plain"⟩⟩⟩

/-- Witness for claim C7 at a concrete duplicate upload. -/
theorem upload_duplicate_frame_witness :
    (uploadDocument false 7 duplicateInfo oneFileState).2 = ⟨0, 0, 0, 1⟩
    ∧ (uploadDocument false 7 duplicateInfo oneFileState).1.bucket = oneFileState.bucket
    ∧ (uploadDocument false 7 duplicateInfo oneFileState).1.objects = oneFileState.objects
    ∧ (uploadDocument false 7 duplicateInfo oneFileState).1.embeddings = oneFileState.embeddings :=
  upload_duplicate_frame false 7 duplicateInfo oneFileState rfl

/-- The user_files table after remove_document: the rows of the owner for
that key are deleted, in both branches of the handler. -/
theorem removeDocument_user_files (u : ℕ) (k : String) (s : ServerState) :
    (removeDocument u k s).user_files =
      s.user_files.filter (fun f => !(decide (f.user_id = u ∧ f.object_key = k))) := by
  unfold removeDocument
  split <;> rfl

/-- Claim C6: remove_document deletes the owners FileRecord for the key and
keeps every other FileRecord; when no FileRecord referencing the key remains
the blob is removed from the bucket and the objects row is deleted, and when
one remains the bucket and the objects table are unchanged. -/
theorem remove_last_reference_deletes_blob (u : ℕ) (k : String) (s : ServerState) :
    (∀ f ∈ (removeDocument u k s).user_files, ¬(f.user_id = u ∧ f.object_key = k))
    ∧ (∀ f ∈ s.user_files, ¬(f.user_id = u ∧ f.object_key = k) →
        f ∈ (removeDocument u k s).user_files)
    ∧ ((∀ f ∈ (removeDocument u k s).user_files, f.object_key ≠ k) →
        k ∉ (removeDocument u k s).bucket
        ∧ ∀ o ∈ (removeDocument u k s).objects, o.object_key ≠ k)
    ∧ ((∃ f ∈ (removeDocument u k s).user_files, f.object_key = k) →
        (removeDocument u k s).bucket = s.bucket
        ∧ (removeDocument u k s).objects = s.objects) := by
  have hufeq := removeDocument_user_files u k s
  refine ⟨?_, ?_, ?_, ?_⟩
  · intro f hf
    rw [hufeq] at hf
    have h2 := (List.mem_filter.mp hf).2
    rwa [Bool.not_eq_true', decide_eq_false_iff_not] at h2
  · intro f hf hnot
    rw [hufeq]
    refine List.mem_filter.mpr ⟨hf, ?_⟩
    rw [Bool.not_eq_true', decide_eq_false_iff_not]
    exact hnot
  · intro hnone
    have hcnt : (((s.user_files.filter
        (fun f => !(decide (f.user_id = u ∧ f.object_key = k)))).filter
        (fun f => decide (f.object_key = k))).length) = 0 := by
      rw [List.length_eq_zero, List.filter_eq_nil_iff]
      intro f hf
      have hm : f ∈ (removeDocument u k s).user_files := by rw [hufeq]; exact hf
      simpa using hnone f hm
    constructor
    · unfold removeDocument
      split
      · intro hmem
        have h2 := (List.mem_filter.mp hmem).2
        simp at h2
      · next h => exact absurd hcnt h
    · unfold removeDocument
      split
      · intro o ho
        have h2 := (List.mem_filter.mp ho).2
        rwa [Bool.not_eq_true', decide_eq_false_iff_not] at h2
      · next h => exact absurd hcnt h
  · rintro ⟨f, hf, hfk⟩
    rw [hufeq] at hf
    have hne : ((s.user_files.filter
        (fun g => !(decide (g.user_id = u ∧ g.object_key = k)))).filter
        (fun g => decide (g.object_key = k))) ≠ [] := by
      apply List.ne_nil_of_mem
      exact List.mem_filter.mpr ⟨hf, by simp [hfk]⟩
    have hcnt : (((s.user_files.filter
        (fun g => !(decide (g.user_id = u ∧ g.object_key = k)))).filter
        (fun g => decide (g.object_key = k))).length) ≠ 0 := by
      intro h
      exact hne (List.length_eq_zero.mp h)
    constructor
    · unfold removeDocument
      split
      · next h => exact absurd h hcnt
      · rfl
    · unfold removeDocument
      split
      · next h => exact absurd h hcnt
      · rfl

/-- Witness for claim C6: removing the only FileRecord of blob "k" deletes
the blob from the bucket and its objects row. -/
theorem remove_last_reference_deletes_blob_witness :
    "k" ∉ (removeDocument 1 "k" oneFileState).bucket
    ∧ ∀ o ∈ (removeDocument 1 "k" oneFileState).objects, o.object_key ≠ "k" :=
  (remove_last_reference_deletes_blob 1 "k" oneFileState).2.2.1 (by decide)

/-- Claim C4 evaluated at its failing input: removing the last FileRecord of
blob "k" empties the bucket, yet the chunk row carrying object_key "k" is
still present in the embeddings table afterwards — remove_document contains
no DELETE against the embeddings table, so the Chunk-references-an-existing-
Blob invariant is broken by the very next state. -/
theorem removeDocument_leaves_chunks :
    (removeDocument 1 "k" oneFileState).bucket = []
    ∧ (removeDocument 1 "k" oneFileState).embeddings = [⟨"k", "chunk text", [0]⟩]
    ∧ ∃ c ∈ (removeDocument 1 "k" oneFileState).embeddings,
        c.object_key ∉ (removeDocument 1 "k" oneFileState).bucket := by
  refine ⟨by decide, by decide, ⟨⟨"k", "chunk text", [0]⟩, by decide, by decide⟩⟩

/-- With an empty allowed-keys list the WHERE clause matches no row, so the
search query returns the empty result set. -/
theorem search_empty_keys (dist : List ℚ → List ℚ → ℚ) (table : List EmbeddingRow)
    (query_embedding : List ℚ) (limit : ℕ) (threshold : ℚ) :
    searchSimilarChunksByObjects dist table query_embedding [] limit threshold = [] := by
  unfold searchSimilarChunksByObjects qualifyingResults
  rw [List.filter_eq_nil_iff.mpr (fun r _ => by simp [rowMatches])]
  simp

/-- Counterexample to claim C5 as stated: with an empty allowed-keys list the
search function still issues its one SQL query (it has no emptiness
short-circuit), and when the model elects retrieval the orchestrator still
makes the retrieval call — the claimed counts of zero are both wrong. -/
theorem empty_keys_counterexample :
    (searchSimilarChunksByObjectsCall dist0 [] [0] [] 5 (7/10)).queries_issued = 1
    ∧ (createRagResponse dist0 [] [] [] (.ok true) (.ok [0]) (.ok "answer")).retrieval_calls = 1
    ∧ (createRagResponse dist0 [] [] [] (.ok true) (.ok [0]) (.ok "answer")).index_queries = 1 :=
  ⟨rfl, rfl, rfl⟩

/-- Claim C5, amended: with an empty allowed-keys list the similarity search
yields an empty result and the orchestrator answer carries empty sources for
every oracle outcome, but the index query is still issued (exactly one per
call) and the retrieval call is still attempted when the model elects it. -/
theorem empty_keys_empty_results (dist : List ℚ → List ℚ → ℚ)
    (table : List EmbeddingRow) (query_embedding : List ℚ) (limit : ℕ)
    (threshold : ℚ) (user_files : List UserFileRow) (decision : ModelCall Bool)
    (embed_outcome : ModelCall (List ℚ)) (final_outcome : ModelCall String) :
    (searchSimilarChunksByObjectsCall dist table query_embedding [] limit threshold).results = []
    ∧ (searchSimilarChunksByObjectsCall dist table query_embedding [] limit
        threshold).queries_issued = 1
    ∧ (createRagResponse dist table user_files [] decision embed_outcome
        final_outcome).sources = [] := by
  refine ⟨?_, rfl, ?_⟩
  · unfold searchSimilarChunksByObjectsCall
    rw [search_empty_keys]
  · cases decision with
    | exn e => rfl
    | ok b =>
      cases b with
      | false => cases final_outcome <;> rfl
      | true =>
        cases embed_outcome with
        | exn e => rfl
        | ok qe =>
          have hres : (searchSimilarChunksByObjectsCall dist table qe [] 5 (7/10)).results = [] :=
            search_empty_keys dist table qe 5 (7/10)
          simp only [createRagResponse, hres, resolveSources]
          cases final_outcome <;> rfl

/-- Claim C8: whichever call on the executed path of create_rag_response
raises (the decision completion, the query embedding, or the final
completion, in each reachable position), the function returns a result
whose text begins with the error marker and whose sources list is empty
instead of propagating the exception. -/
theorem rag_error_handling (dist : List ℚ → List ℚ → ℚ) (table : List EmbeddingRow)
    (user_files : List UserFileRow) (object_keys : List String)
    (embed_outcome : ModelCall (List ℚ)) (final_outcome : ModelCall String)
    (e : String) (query_embedding : List ℚ) :
    ((∃ rest, (createRagResponse dist table user_files object_keys (.exn e)
        embed_outcome final_outcome).answer = "Error generating response: " ++ rest)
      ∧ (createRagResponse dist table user_files object_keys (.exn e)
        embed_outcome final_outcome).sources = [])
    ∧ ((∃ rest, (createRagResponse dist table user_files object_keys (.ok false)
        embed_outcome (.exn e)).answer = "Error generating response: " ++ rest)
      ∧ (createRagResponse dist table user_files object_keys (.ok false)
        embed_outcome (.exn e)).sources = [])
    ∧ ((∃ rest, (createRagResponse dist table user_files object_keys (.ok true)
        (.exn e) final_outcome).answer = "Error generating response: " ++ rest)
      ∧ (createRagResponse dist table user_files object_keys (.ok true)
        (.exn e) final_outcome).sources = [])
    ∧ ((∃ rest, (createRagResponse dist table user_files object_keys (.ok true)
        (.ok query_embedding) (.exn e)).answer = "Error generating response: " ++ rest)
      ∧ (createRagResponse dist table user_files object_keys (.ok true)
        (.ok query_embedding) (.exn e)).sources = []) := by
  refine ⟨⟨⟨e, rfl⟩, rfl⟩, ⟨⟨e, rfl⟩, rfl⟩, ⟨⟨e, rfl⟩, rfl⟩, ?_⟩
  cases hres : resolveSources user_files
      (searchSimilarChunksByObjectsCall dist table query_embedding object_keys 5 (7/10)).results with
  | exn e2 =>
    constructor
    · refine ⟨e2, ?_⟩
      simp only [createRagResponse, hres]
      rfl
    · simp only [createRagResponse, hres]
  | ok srcs =>
    constructor
    · refine ⟨e, ?_⟩
      simp only [createRagResponse, hres]
      rfl
    · simp only [createRagResponse, hres]

/-- Claim C9 evaluated at its failing input: when a generation call exceeds
its timeout, _safe_generate_reply returns the ERROR-tagged string as the
internal reply with the done flag, but pushes no turn at all onto the
session output queue — the queue emission list is empty, not a single
error-tagged turn. -/
theorem safe_generate_reply_timeout_no_turn :
    safeGenerateReply true "rag_agent" GenOutcome.timeout ([] : List String)
      = ([], (true, "ERROR: I took too long to respond. Please try again."))
    ∧ (safeGenerateReply true "rag_agent" GenOutcome.timeout ([] : List String)).1.length = 0 :=
  ⟨rfl, rfl⟩

/-- Predicate from the wording of claim C10: the streamed content retains a
leading all-caps tag, that is the text before its first colon is upper-case
in the sense of str.isupper. -/
def claimLeadingAllCapsTag (content : String) : Bool :=
  match splitFirstColon content.data with
  | none => false
  | some (tag, _) => pyIsUpper tag

/-- Counterexample to the consequence asserted by claim C10: for a content
with two stacked tags the strip runs only once, and the enqueued turn still
retains a leading all-caps tag. -/
theorem strip_tag_counterexample :
    sendMessage true "rag_agent" "ERROR: TIMEOUT: x" ([] : List String)
      = [⟨"Rag Agent", " TIMEOUT: x", []⟩]
    ∧ claimLeadingAllCapsTag " TIMEOUT: x" = true := by
  refine ⟨by decide, by decide⟩

/-- Claim C10, amended: when the content contains a colon and the text
before the first colon is upper-case in the sense of str.isupper, that
prefix and the colon are stripped (exactly once) before the turn is
enqueued; the remainder may itself still start with an all-caps tag. -/
theorem send_message_strips_tag_once {σ : Type} (sender content : String)
    (sources : List σ) (tag message : List Char)
    (hsplit : splitFirstColon content.data = some (tag, message))
    (hupper : pyIsUpper tag = true) :
    sendMessage true sender content sources
      = [⟨displayName sender, String.mk message, sources⟩] := by
  simp [sendMessage, stripTag, hsplit, hupper]

/-- Witness for the amended claim C10 at a concrete ERROR-tagged content. -/
theorem send_message_strips_tag_once_witness :
    sendMessage true "query_analyzer_agent" "ERROR: hi" ([] : List String)
      = [⟨"Query Analyzer Agent", String.mk " hi".data, []⟩] :=
  send_message_strips_tag_once "query_analyzer_agent" "ERROR: hi" []
    "ERROR".data " hi".data (by decide) (by decide)

end PaperMachine
